import Mathlib

/-!
Verification of the NineSong scene-audio route repositories
(`repository_route_media_file.go` and `repository_route_album.go`).

The repositories build MongoDB aggregation pipelines as pure data (bson
documents) and hand them to the store.  We embed:

* the Go standard-library parsing helpers the code uses (`strconv.Atoi`,
  `strconv.ParseBool`, `strings.ToLower`),
* the bson filter documents actually constructed by the Go builders, as a
  deep syntax (`Filter`) whose constructors record the exact bson shape,
* the aggregation stages (`Stage`) and the pipelines assembled by
  `GetMediaFileItems` / `GetAlbumItems` and the two FilterItemsCount
  functions,
* an execution semantics for the fragment of MongoDB used by these
  pipelines (filter evaluation, `$lookup`+`$unwind` join, `$sort` key
  comparison, `$skip`/`$limit`, `$facet`+`$count`), over entity /
  annotation records drawn from the spec's data model (the model structs
  live outside the repository slice under verification).
-/

namespace NineSong

/-- Model of Go `strconv.Atoi`: optional sign followed by at least one
ASCII digit; anything else is a parse error (`none`).  Overflow of the
machine integer is not modelled. -/
def strconvAtoiDigits : List Char → Nat → Option Nat
  | [], acc => some acc
  | c :: cs, acc =>
      if c.isDigit then strconvAtoiDigits cs (acc * 10 + (c.toNat - '0'.toNat))
      else none

/-- Model of Go `strconv.Atoi` (sign handling and digit parsing). -/
def strconvAtoi (s : String) : Option Int :=
  match s.toList with
  | [] => none
  | '+' :: cs =>
      match cs with
      | [] => none
      | _ => (strconvAtoiDigits cs 0).map (fun n => (n : Int))
  | '-' :: cs =>
      match cs with
      | [] => none
      | _ => (strconvAtoiDigits cs 0).map (fun n => -(n : Int))
  | cs => (strconvAtoiDigits cs 0).map (fun n => (n : Int))

/-- Model of Go `strconv.ParseBool`: accepts exactly the listed literals. -/
def strconvParseBool (s : String) : Option Bool :=
  if s = "1" ∨ s = "t" ∨ s = "T" ∨ s = "TRUE" ∨ s = "true" ∨ s = "True" then some true
  else if s = "0" ∨ s = "f" ∨ s = "F" ∨ s = "FALSE" ∨ s = "false" ∨ s = "False" then some false
  else none

/-- Model of Go `strings.ToLower` (ASCII case folding; the sort keys and
field names involved are all ASCII). -/
def goToLower (s : String) : String := String.mk (s.toList.map Char.toLower)

/-- A bson value as it appears in the documents these pipelines read and
in the filter literals they build. `strArr` stands for the multi-valued
`all_artist_ids.artist_id` path, which resolves to the list of artist ids
of the `all_artist_ids` array. -/
inductive FieldVal
  | null
  | intV (n : Int)
  | strV (s : String)
  | boolV (b : Bool)
  | strArr (l : List String)
deriving DecidableEq, Repr

/-- Deep embedding of the bson filter documents constructed by
`buildMatchStage` / `buildAlbumMatch`.  Each constructor records the exact
bson shape built by the Go code:

* `eqF f v`      — `{f: v}`
* `gtIntF f n`   — `{f: {$gt: n}}`
* `neNullF f`    — `{f: {$ne: nil}}`
* `regexI f p`   — `{f: {$regex: p, $options: "i"}}`
* `rangeF f g l` — `{f: {$gte: g?, $lte: l?}}` (at least one bound set)
* `and1 f`       — `{$and: [f]}`
* `and2 f g`     — `{$and: [f, g]}`
* `or2 f g`      — `{$or: [f, g]}`
* `or3 f g h`    — `{$or: [f, g, h]}` -/
inductive Filter
  | eqF (field : String) (v : FieldVal)
  | gtIntF (field : String) (n : Int)
  | neNullF (field : String)
  | regexI (field : String) (pattern : String)
  | rangeF (field : String) (gte lte : Option Int)
  | and1 (f : Filter)
  | and2 (f g : Filter)
  | or2 (f g : Filter)
  | or3 (f g h : Filter)
deriving DecidableEq, Repr

/-- Aggregation pipeline stages used by the two repositories.

* `lookupAnn t` — the `$lookup` from the annotation collection with the
  `$expr` sub-pipeline matching `item_id == $$id && item_type == t`,
  exposed as the `annotations` field;
* `unwindAnn` — `$unwind` of `annotations` with
  `preserveNullAndEmptyArrays: true`;
* `addAnnFields` — the `$addFields` stage flattening
  `play_count`/`play_date`/`rating`/`starred`/`starred_at` out of
  `annotations`;
* `matchDoc cs` — a `$match` whose document is the conjunction of `cs`;
* `sortDoc ks` — `$sort` with the ordered key/direction list `ks`;
* `skipDoc` / `limitDoc` — `$skip` / `$limit`;
* `facetCounts` — the `$facet` with the fixed `total` / `starred`
  (`annotations.starred == true`) / `recent_play`
  (`annotations.play_count > 0`) `$count` branches. -/
inductive Stage
  | lookupAnn (itemType : String)
  | unwindAnn
  | addAnnFields
  | matchDoc (clauses : List Filter)
  | sortDoc (keys : List (String × Int))
  | skipDoc (n : Nat)
  | limitDoc (n : Nat)
  | facetCounts
deriving DecidableEq, Repr

/-! ## Filter builders (media files), from `repository_route_media_file.go` -/

/-- The `artistId` clause of `buildMatchStage`:
`{$and: [{$or: [{artist_id: v}, {"all_artist_ids.artist_id": v}]}]}`,
added when `artistId != ""`. -/
def mediaArtistClause (artistId : String) : List Filter :=
  if artistId = "" then []
  else [Filter.and1 (Filter.or2 (Filter.eqF "artist_id" (FieldVal.strV artistId))
                                (Filter.eqF "all_artist_ids.artist_id" (FieldVal.strV artistId)))]

/-- The `albumId` clause of `buildMatchStage`: `{album_id: v}`. -/
def mediaAlbumClause (albumId : String) : List Filter :=
  if albumId = "" then []
  else [Filter.eqF "album_id" (FieldVal.strV albumId)]

/-- The `year` clause of `buildMatchStage`: `{year: n}` when the string
parses, silently dropped otherwise. -/
def mediaYearClause (year : String) : List Filter :=
  if year = "" then []
  else
    match strconvAtoi year with
    | some n => [Filter.eqF "year" (FieldVal.intV n)]
    | none => []

/-- The search `$or` of `buildMatchStage`: case-insensitive `$regex` with
the raw search string over `title`/`artist`/`album`. -/
def mediaSearchFilter (search : String) : Filter :=
  Filter.or3 (Filter.regexI "title" search)
             (Filter.regexI "artist" search)
             (Filter.regexI "album" search)

/-- The search clause of `buildMatchStage`, added when `search != ""`. -/
def mediaSearchClause (search : String) : List Filter :=
  if search = "" then [] else [mediaSearchFilter search]

/-- The `starred` clause of `buildMatchStage`: `{starred: b}` when the
string parses as a boolean, silently dropped otherwise. -/
def mediaStarredClause (starred : String) : List Filter :=
  if starred = "" then []
  else
    match strconvParseBool starred with
    | some b => [Filter.eqF "starred" (FieldVal.boolV b)]
    | none => []

/-- `buildMatchStage(search, starred, albumId, artistId, year)`: the base
filter document, clauses appended in the source order (artist, album,
year, search, starred). -/
def buildMatchStage (search starred albumId artistId year : String) : List Filter :=
  mediaArtistClause artistId ++ mediaAlbumClause albumId ++ mediaYearClause year
    ++ mediaSearchClause search ++ mediaStarredClause starred

/-- `buildBaseMatch(search, albumId, artistId, year)`: delegates to
`buildMatchStage` with the starred argument fixed to `""`. -/
def buildBaseMatch (search albumId artistId year : String) : List Filter :=
  buildMatchStage search "" albumId artistId year

/-! ## Filter builders (albums), from `repository_route_album.go` -/

/-- The `artistId` clause of `buildAlbumMatch`:
`{$or: [{artist_id: v}, {"all_artist_ids.artist_id": v}]}` (no `$and`
wrapper, unlike the media-file builder). -/
def albumArtistClause (artistId : String) : List Filter :=
  if artistId = "" then []
  else [Filter.or2 (Filter.eqF "artist_id" (FieldVal.strV artistId))
                   (Filter.eqF "all_artist_ids.artist_id" (FieldVal.strV artistId))]

/-- The year-window clause of `buildAlbumMatch`: builds `{$gte: minYear?}`
/ `{$lte: maxYear?}` from whichever bounds parse, and when at least one
parsed, wraps them as `{$or: [{min_year: w}, {max_year: w}]}`. -/
def albumYearClause (minYear maxYear : String) : List Filter :=
  if minYear ≠ "" ∨ maxYear ≠ "" then
    let g : Option Int := if minYear ≠ "" then strconvAtoi minYear else none
    let l : Option Int := if maxYear ≠ "" then strconvAtoi maxYear else none
    if g = none ∧ l = none then []
    else [Filter.or2 (Filter.rangeF "min_year" g l) (Filter.rangeF "max_year" g l)]
  else []

/-- The search `$or` of `buildAlbumMatch`: case-insensitive `$regex` with
the raw search string over `name`/`artist`/`album_artist`. -/
def albumSearchFilter (search : String) : Filter :=
  Filter.or3 (Filter.regexI "name" search)
             (Filter.regexI "artist" search)
             (Filter.regexI "album_artist" search)

/-- The search clause of `buildAlbumMatch`, added when `search != ""`. -/
def albumSearchClause (search : String) : List Filter :=
  if search = "" then [] else [albumSearchFilter search]

/-- The `starred` clause of `buildAlbumMatch` (same as the media one). -/
def albumStarredClause (starred : String) : List Filter :=
  if starred = "" then []
  else
    match strconvParseBool starred with
    | some b => [Filter.eqF "starred" (FieldVal.boolV b)]
    | none => []

/-- `buildAlbumMatch(search, starred, artistId, minYear, maxYear)`:
clauses appended in the source order (artist, year window, search,
starred). -/
def buildAlbumMatch (search starred artistId minYear maxYear : String) : List Filter :=
  albumArtistClause artistId ++ albumYearClause minYear maxYear
    ++ albumSearchClause search ++ albumStarredClause starred

/-- `buildAlbumBaseMatch`: delegates to `buildAlbumMatch` with all five
parameters, the starred one included. -/
def buildAlbumBaseMatch (search starred artistId minYear maxYear : String) : List Filter :=
  buildAlbumMatch search starred artistId minYear maxYear

/-! ## Sort field resolution -/

/-- The media-file logical-to-physical sort key table of
`validateSortField`. -/
def mediaSortMappings : List (String × String) :=
  [("title", "order_title"),
   ("album", "order_album_name"),
   ("artist", "order_artist_name"),
   ("album_artist", "order_album_artist_name"),
   ("year", "year"),
   ("rating", "rating"),
   ("starred_at", "starred_at"),
   ("genre", "genre"),
   ("play_count", "play_count"),
   ("play_date", "play_date"),
   ("duration", "duration"),
   ("bit_rate", "bit_rate"),
   ("size", "size"),
   ("created_at", "created_at"),
   ("updated_at", "updated_at")]

/-- `validateSortField(sort, albumId)` for media files: look the
lowercased key up in the table; otherwise fall back to `"file_name"` when
an album is being viewed (`len(albumId) > 0`) and to `"_id"` otherwise. -/
def validateSortField (sort albumId : String) : String :=
  match mediaSortMappings.lookup (goToLower sort) with
  | some mapped => mapped
  | none => if 0 < albumId.length then "file_name" else "_id"

/-- The album logical-to-physical sort key table of
`validateAlbumSortField`. -/
def albumSortMappings : List (String × String) :=
  [("name", "order_album_name"),
   ("artist", "artist"),
   ("album_artist", "album_artist"),
   ("min_year", "min_year"),
   ("max_year", "max_year"),
   ("rating", "rating"),
   ("starred_at", "starred_at"),
   ("genre", "genre"),
   ("song_count", "song_count"),
   ("duration", "duration"),
   ("size", "size"),
   ("play_count", "play_count"),
   ("play_date", "play_date"),
   ("created_at", "created_at"),
   ("updated_at", "updated_at")]

/-- The second, physical-field allow-list of `validateAlbumSortField`. -/
def albumValidSortFields : List String :=
  ["order_album_name", "artist", "album_artist", "min_year", "max_year",
   "rating", "starred_at", "genre", "song_count", "duration", "size",
   "play_count", "play_date", "created_at", "updated_at"]

/-- `validateAlbumSortField(sort)`: look the lowercased key up in the
logical table; failing that, a lowercased key that is itself one of the
physical sort fields resolves to itself; otherwise fall back to `"_id"`. -/
def validateAlbumSortField (sort : String) : String :=
  match albumSortMappings.lookup (goToLower sort) with
  | some mapped => mapped
  | none => if albumValidSortFields.contains (goToLower sort) then goToLower sort else "_id"

/-! ## Sort and pagination stage builders -/

/-- `buildSortStage(sort, order)`: `$sort` by the resolved field
(descending exactly when `order == "desc"`) then by `_id` ascending. -/
def buildSortStage (sort order : String) : Stage :=
  Stage.sortDoc [(sort, if order = "desc" then -1 else 1), ("_id", 1)]

/-- `buildAlbumSortStage(sort, order)`: identical to the media builder. -/
def buildAlbumSortStage (sort order : String) : Stage :=
  Stage.sortDoc [(sort, if order = "desc" then -1 else 1), ("_id", 1)]

/-- `buildMediaPaginationStage(start, end)`: both strings must parse,
`start >= 0`, `end > start`; otherwise no pagination stages.  On success
`skip = start` (stage added only when positive) and
`limit = end - start` (stage added when positive, which always holds). -/
def buildMediaPaginationStage (start endStr : String) : List Stage :=
  match strconvAtoi start, strconvAtoi endStr with
  | some startInt, some endInt =>
      if startInt < 0 ∨ endInt ≤ startInt then []
      else
        (if 0 < startInt then [Stage.skipDoc startInt.toNat] else [])
          ++ (if 0 < endInt - startInt then [Stage.limitDoc (endInt - startInt).toNat] else [])
  | _, _ => []

/-- `buildAlbumPaginationStage(start, end)`: textually identical to the
media-file builder. -/
def buildAlbumPaginationStage (start endStr : String) : List Stage :=
  match strconvAtoi start, strconvAtoi endStr with
  | some startInt, some endInt =>
      if startInt < 0 ∨ endInt ≤ startInt then []
      else
        (if 0 < startInt then [Stage.skipDoc startInt.toNat] else [])
          ++ (if 0 < endInt - startInt then [Stage.limitDoc (endInt - startInt).toNat] else [])
  | _, _ => []

/-! ## Pipeline assembly -/

/-- The `$match` stage the media pipeline inserts when
`validateSortField` resolved to `"play_date"`: `{play_count: {$gt: 0}}`. -/
def mediaPlayedStage : Stage :=
  Stage.matchDoc [Filter.gtIntF "play_count" 0]

/-- The `$match` stage the album pipeline inserts when the resolved sort
field is `"play_count"` or `"play_date"`:
`{$and: [{play_count: {$gt: 0}}, {play_date: {$ne: nil}}]}`. -/
def albumPlayedStage : Stage :=
  Stage.matchDoc [Filter.and2 (Filter.gtIntF "play_count" 0) (Filter.neNullF "play_date")]

/-- The aggregation pipeline assembled by `GetMediaFileItems`: lookup,
unwind, addFields, then the base `$match` when non-empty, then the
play-date conditional `$match`, then sort, then pagination. -/
def getMediaFileItemsPipeline
    (start endStr sort order search starred albumId artistId year : String) : List Stage :=
  [Stage.lookupAnn "media", Stage.unwindAnn, Stage.addAnnFields]
    ++ (let m := buildMatchStage search starred albumId artistId year
        if 0 < m.length then [Stage.matchDoc m] else [])
    ++ (if validateSortField sort albumId = "play_date" then [mediaPlayedStage] else [])
    ++ [buildSortStage (validateSortField sort albumId) order]
    ++ buildMediaPaginationStage start endStr

/-- The aggregation pipeline assembled by `GetAlbumItems`: lookup, unwind,
addFields, then the play-count/play-date conditional `$match`, then the
base `$match` when non-empty, then sort, then pagination. -/
def getAlbumItemsPipeline
    (start endStr sort order search starred artistId minYear maxYear : String) : List Stage :=
  [Stage.lookupAnn "album", Stage.unwindAnn, Stage.addAnnFields]
    ++ (if validateAlbumSortField sort = "play_count" ∨ validateAlbumSortField sort = "play_date"
        then [albumPlayedStage] else [])
    ++ (let m := buildAlbumMatch search starred artistId minYear maxYear
        if 0 < m.length then [Stage.matchDoc m] else [])
    ++ [buildAlbumSortStage (validateAlbumSortField sort) order]
    ++ buildAlbumPaginationStage start endStr

/-- The aggregation pipeline assembled by `GetMediaFileFilterItemsCount`:
lookup, unconditional base `$match` (note: built by `buildBaseMatch`,
without the starred parameter), then the `$facet` count stage.  No unwind
or addFields stage is present. -/
def getMediaFileFilterItemsCountPipeline
    (search albumId artistId year : String) : List Stage :=
  [Stage.lookupAnn "media",
   Stage.matchDoc (buildBaseMatch search albumId artistId year),
   Stage.facetCounts]

/-- The aggregation pipeline assembled by `GetAlbumFilterItemsCount`:
lookup, unconditional base `$match` (built by `buildAlbumBaseMatch`, all
five parameters), then the `$facet` count stage. -/
def getAlbumFilterItemsCountPipeline
    (search starred artistId minYear maxYear : String) : List Stage :=
  [Stage.lookupAnn "album",
   Stage.matchDoc (buildAlbumBaseMatch search starred artistId minYear maxYear),
   Stage.facetCounts]

/-- A repository call as issued to the store: the context deadline the
function installs (seconds), if any, and the pipeline it aggregates. -/
structure RepoCall where
  timeoutSeconds : Option Nat
  pipeline : List Stage
deriving DecidableEq, Repr

/-- `GetMediaFileItems` wraps its context with `context.WithTimeout(ctx,
10*time.Second)` before aggregating. -/
def getMediaFileItemsCall
    (start endStr sort order search starred albumId artistId year : String) : RepoCall :=
  { timeoutSeconds := some 10,
    pipeline := getMediaFileItemsPipeline start endStr sort order search starred albumId artistId year }

/-- `GetAlbumItems` wraps its context with a 10-second timeout before
aggregating. -/
def getAlbumItemsCall
    (start endStr sort order search starred artistId minYear maxYear : String) : RepoCall :=
  { timeoutSeconds := some 10,
    pipeline := getAlbumItemsPipeline start endStr sort order search starred artistId minYear maxYear }

/-- `GetMediaFileFilterItemsCount` installs no deadline of its own: it
aggregates directly on the caller's context. -/
def getMediaFileFilterItemsCountCall
    (search starred albumId artistId year : String) : RepoCall :=
  { timeoutSeconds := none,
    pipeline := getMediaFileFilterItemsCountPipeline search albumId artistId year }

/-- `GetAlbumFilterItemsCount` installs no deadline of its own. -/
def getAlbumFilterItemsCountCall
    (search starred artistId minYear maxYear : String) : RepoCall :=
  { timeoutSeconds := none,
    pipeline := getAlbumFilterItemsCountPipeline search starred artistId minYear maxYear }

/-! ## Data model

Modelled from the spec: the entity and annotation model structs
(`scene_audio_route_models`) and the stored document schemas are outside
the repository slice under verification; the structures below carry the
identifier, the per-user annotation state of spec section 3, and exactly
the attribute fields the repository filters and valuations reference. -/

/-- Modelled from the spec: per-(item_id, item_type) user state (spec
section 3) as stored in the annotation collection. -/
structure Annotation where
  item_id : Nat
  item_type : String
  play_count : Nat
  play_date : Option Int
  rating : Int
  starred : Bool
  starred_at : Option Int
deriving DecidableEq, Repr

/-- Modelled from the spec: a media-file entity with the attribute fields
the media pipelines reference. -/
structure MediaFile where
  id : Nat
  title : String
  artist : String
  album : String
  album_id : String
  artist_id : String
  all_artist_ids : List String
  year : Int
  file_name : String
deriving DecidableEq, Repr

/-- Modelled from the spec: an album entity with the attribute fields the
album pipelines reference. -/
structure Album where
  id : Nat
  name : String
  artist : String
  album_artist : String
  artist_id : String
  all_artist_ids : List String
  min_year : Int
  max_year : Int
deriving DecidableEq, Repr

/-! ## Regex model

The search clauses pass the raw search string to `$regex` with options
`"i"`.  `regexIMatch` is the semantics of that matcher for the fragment
actually reasoned about here: patterns made of literal characters and the
`.` wildcard, matched case-insensitively and unanchored.  Other
metacharacters are outside this model. -/

/-- One element of a parsed pattern: a literal character or the `.`
wildcard. -/
inductive RElem
  | dot
  | lit (c : Char)
deriving DecidableEq, Repr

/-- Parse a pattern string of the modelled fragment. -/
def parseRegex (p : String) : List RElem :=
  p.toList.map (fun c => if c = '.' then RElem.dot else RElem.lit c)

/-- Case folding used by the `"i"` option. -/
def charCI (c : Char) : Char := c.toLower

/-- Does the pattern match a prefix of the character list? -/
def reMatchesPrefix : List RElem → List Char → Bool
  | [], _ => true
  | _ :: _, [] => false
  | RElem.dot :: ps, _ :: cs => reMatchesPrefix ps cs
  | RElem.lit c :: ps, d :: cs => (charCI c == charCI d) && reMatchesPrefix ps cs

/-- Unanchored search: does the pattern match starting at any position? -/
def reSearch (ps : List RElem) : List Char → Bool
  | [] => reMatchesPrefix ps []
  | c :: cs' => reMatchesPrefix ps (c :: cs') || reSearch ps cs'

/-- Case-insensitive regex match of `pattern` anywhere in `s`, for the
modelled pattern fragment. -/
def regexIMatch (pattern s : String) : Bool :=
  reSearch (parseRegex pattern) s.toList

/-- Case-insensitive prefix test on character lists. -/
def prefixCI : List Char → List Char → Bool
  | [], _ => true
  | _ :: _, [] => false
  | c :: ps, d :: cs => (charCI c == charCI d) && prefixCI ps cs

/-- Case-insensitive substring test on character lists. -/
def substrCI (pat : List Char) : List Char → Bool
  | [] => prefixCI pat []
  | c :: cs' => prefixCI pat (c :: cs') || substrCI pat cs'

/-- The spec's notion of search matching: the search string occurs
case-insensitively as a literal substring of `s`. -/
def containsSubstrCI (s pat : String) : Bool :=
  substrCI pat.toList s.toList

/-- `true` when the pattern contains no regex metacharacter, so that
regex matching and literal substring matching coincide. -/
def regexLiteralChars (pat : String) : Bool :=
  pat.toList.all (fun c =>
    !(['.', '*', '+', '?', '(', ')', '[', ']', '{', '}', '^', '$', '|', '\\'].contains c))

/-! ## Filter evaluation semantics -/

/-- MongoDB equality match of a stored value against a filter literal: a
direct equality, or — for a multi-valued path — membership of the literal
among the resolved values. -/
def fvEqMatch (stored target : FieldVal) : Bool :=
  stored == target ||
    match stored, target with
    | FieldVal.strArr l, FieldVal.strV s => l.contains s
    | _, _ => false

/-- Evaluate one filter document against a valuation of field paths.
Missing fields are valued `null`; `$gt`/`$gte`/`$lte` on an integer bound
only match integer-valued fields (MongoDB type bracketing), and
`{$ne: nil}` matches exactly the documents where the field is neither
null nor missing. -/
def evalFilter (val : String → FieldVal) : Filter → Bool
  | Filter.eqF f v => fvEqMatch (val f) v
  | Filter.gtIntF f n =>
      match val f with
      | FieldVal.intV m => n < m
      | _ => false
  | Filter.neNullF f => !(val f == FieldVal.null)
  | Filter.regexI f p =>
      match val f with
      | FieldVal.strV s => regexIMatch p s
      | _ => false
  | Filter.rangeF f g l =>
      match val f with
      | FieldVal.intV m =>
          (match g with | some b => b ≤ m | none => true)
            && (match l with | some b => m ≤ b | none => true)
      | _ => false
  | Filter.and1 f => evalFilter val f
  | Filter.and2 f g => evalFilter val f && evalFilter val g
  | Filter.or2 f g => evalFilter val f || evalFilter val g
  | Filter.or3 f g h => evalFilter val f || evalFilter val g || evalFilter val h

/-- A `$match` document (a clause list) holds when every clause holds. -/
def evalClauses (val : String → FieldVal) (clauses : List Filter) : Bool :=
  clauses.all (evalFilter val)

/-- Valuation of a stored media-file document (entity fields only, as
seen by the count pipeline, which has no unwind/addFields stage).  Per
the spec's data model the per-user `starred`/`play_count` state lives in
the annotation collection, not on the entity, so those paths resolve to
`null` here. -/
def mediaVal (f : MediaFile) : String → FieldVal := fun field =>
  if field = "_id" then FieldVal.intV f.id
  else if field = "title" then FieldVal.strV f.title
  else if field = "artist" then FieldVal.strV f.artist
  else if field = "album" then FieldVal.strV f.album
  else if field = "album_id" then FieldVal.strV f.album_id
  else if field = "artist_id" then FieldVal.strV f.artist_id
  else if field = "all_artist_ids.artist_id" then FieldVal.strArr f.all_artist_ids
  else if field = "year" then FieldVal.intV f.year
  else if field = "file_name" then FieldVal.strV f.file_name
  else FieldVal.null

/-- Valuation of a stored album document (entity fields only). -/
def albumVal (a : Album) : String → FieldVal := fun field =>
  if field = "_id" then FieldVal.intV a.id
  else if field = "name" then FieldVal.strV a.name
  else if field = "artist" then FieldVal.strV a.artist
  else if field = "album_artist" then FieldVal.strV a.album_artist
  else if field = "artist_id" then FieldVal.strV a.artist_id
  else if field = "all_artist_ids.artist_id" then FieldVal.strArr a.all_artist_ids
  else if field = "min_year" then FieldVal.intV a.min_year
  else if field = "max_year" then FieldVal.intV a.max_year
  else FieldVal.null

/-- Valuation of a joined media-file document after `$unwind` and
`$addFields`: the flattened annotation fields shadow the entity
valuation; with no annotation they are missing, i.e. `null`. -/
def mediaListVal (j : MediaFile × Option Annotation) : String → FieldVal := fun field =>
  if field = "play_count" then
    match j.2 with
    | some a => FieldVal.intV a.play_count
    | none => FieldVal.null
  else if field = "play_date" then
    match j.2 with
    | some a => match a.play_date with | some t => FieldVal.intV t | none => FieldVal.null
    | none => FieldVal.null
  else if field = "rating" then
    match j.2 with
    | some a => FieldVal.intV a.rating
    | none => FieldVal.null
  else if field = "starred" then
    match j.2 with
    | some a => FieldVal.boolV a.starred
    | none => FieldVal.null
  else if field = "starred_at" then
    match j.2 with
    | some a => match a.starred_at with | some t => FieldVal.intV t | none => FieldVal.null
    | none => FieldVal.null
  else mediaVal j.1 field

/-- Valuation of a joined album document after `$unwind` and
`$addFields` (the album list pipeline's view). -/
def albumListVal (j : Album × Option Annotation) : String → FieldVal := fun field =>
  if field = "play_count" then
    match j.2 with
    | some a => FieldVal.intV a.play_count
    | none => FieldVal.null
  else if field = "play_date" then
    match j.2 with
    | some a => match a.play_date with | some t => FieldVal.intV t | none => FieldVal.null
    | none => FieldVal.null
  else if field = "rating" then
    match j.2 with
    | some a => FieldVal.intV a.rating
    | none => FieldVal.null
  else if field = "starred" then
    match j.2 with
    | some a => FieldVal.boolV a.starred
    | none => FieldVal.null
  else if field = "starred_at" then
    match j.2 with
    | some a => match a.starred_at with | some t => FieldVal.intV t | none => FieldVal.null
    | none => FieldVal.null
  else albumVal j.1 field

/-! ## Join semantics: `$lookup` + `$unwind` with preserveNullAndEmptyArrays -/

/-- The annotations the `$lookup` sub-pipeline selects for one entity:
`item_id == entity id && item_type == tag`. -/
def annotationsFor (anns : List Annotation) (itemType : String) (itemId : Nat) : List Annotation :=
  anns.filter (fun a => a.item_id == itemId && a.item_type == itemType)

/-- `$unwind` with `preserveNullAndEmptyArrays: true`: an empty
annotations array yields one document with the field absent; otherwise
one document per array element. -/
def unwindPreserve (ms : List Annotation) : List (Option Annotation) :=
  match ms with
  | [] => [none]
  | ms => ms.map some

/-- The joined document stream after `$lookup` and `$unwind`. -/
def joinWithAnnotations (idOf : α → Nat) (itemType : String)
    (entities : List α) (anns : List Annotation) : List (α × Option Annotation) :=
  entities.flatMap (fun x => (unwindPreserve (annotationsFor anns itemType (idOf x))).map (fun o => (x, o)))

/-- The media-file join (`item_type` tag `"media"`). -/
def joinMedia (files : List MediaFile) (anns : List Annotation) :
    List (MediaFile × Option Annotation) :=
  joinWithAnnotations MediaFile.id "media" files anns

/-- The album join (`item_type` tag `"album"`). -/
def joinAlbum (albums : List Album) (anns : List Annotation) :
    List (Album × Option Annotation) :=
  joinWithAnnotations Album.id "album" albums anns

/-- Modelled from the spec: the flattened annotation metadata fields of
the decoded result records (`MediaFileMetadata` / `AlbumMetadata` live
outside the verified slice).  Bson decoding fills fields that are missing
from a document with the Go zero values. -/
structure AnnotationFields where
  play_count : Nat
  play_date : Option Int
  rating : Int
  starred : Bool
  starred_at : Option Int
deriving DecidableEq, Repr

/-- Decode the flattened annotation fields of a joined document: with no
annotation every flattened field is missing and decodes to the zero
value. -/
def decodeAnnotationFields : Option Annotation → AnnotationFields
  | some a => ⟨a.play_count, a.play_date, a.rating, a.starred, a.starred_at⟩
  | none => ⟨0, none, 0, false, none⟩

/-! ## Facet count semantics -/

/-- `$count` emits one `{count: n}` document when its input stream is
non-empty, and no document at all on an empty stream. -/
def runCountStage (s : List α) : List Nat :=
  if s.length = 0 then [] else [s.length]

/-- Go helper `extractCount`: the `count` value of the first document,
`0` when the branch produced no document. -/
def extractCount : List Nat → Nat
  | [] => 0
  | n :: _ => n

/-- Modelled from the spec: the `MediaFileFilterCounts` /
`AlbumFilterCounts` result struct — three integer counters. -/
structure FilterCounts where
  total : Nat
  starred : Nat
  recentPlay : Nat
deriving DecidableEq, Repr

/-- The `starred` facet branch predicate `{"annotations.starred": true}`
over the un-unwound annotations array: some array element has
`starred == true`. -/
def annStarredPred (anns : List Annotation) : Bool :=
  anns.any (fun a => a.starred)

/-- The `recent_play` facet branch predicate
`{"annotations.play_count": {$gt: 0}}`: some array element has a positive
play count. -/
def annPlayedPred (anns : List Annotation) : Bool :=
  anns.any (fun a => 0 < a.play_count)

/-- The base-filtered joined set of the media count pipeline: each entity
paired with its looked-up annotations, filtered by the `$match` on
`buildBaseMatch` (evaluated against the entity document — the count
pipeline has no unwind/addFields stage). -/
def mediaCountBase (files : List MediaFile) (anns : List Annotation)
    (search albumId artistId year : String) : List (MediaFile × List Annotation) :=
  (files.map (fun f => (f, annotationsFor anns "media" f.id))).filter
    (fun d => evalClauses (mediaVal d.1) (buildBaseMatch search albumId artistId year))

/-- The base-filtered joined set of the album count pipeline. -/
def albumCountBase (albums : List Album) (anns : List Annotation)
    (search starred artistId minYear maxYear : String) : List (Album × List Annotation) :=
  (albums.map (fun a => (a, annotationsFor anns "album" a.id))).filter
    (fun d => evalClauses (albumVal d.1) (buildAlbumBaseMatch search starred artistId minYear maxYear))

/-- The `$facet` stage followed by the Go decode: each branch is a
`$count` over the shared upstream set (the `starred` / `recent_play`
branches first `$match` on their annotation predicate), extracted with
`extractCount`. -/
def runFacetExtract (base : List α) (p q : α → Bool) : FilterCounts :=
  { total := extractCount (runCountStage base),
    starred := extractCount (runCountStage (base.filter p)),
    recentPlay := extractCount (runCountStage (base.filter q)) }

/-- Executing `GetMediaFileFilterItemsCount` against a store snapshot.
The `starred` request parameter is accepted but (per `buildBaseMatch`)
not used. -/
def getMediaFileFilterItemsCountRun (files : List MediaFile) (anns : List Annotation)
    (search starred albumId artistId year : String) : FilterCounts :=
  runFacetExtract (mediaCountBase files anns search albumId artistId year)
    (fun d => annStarredPred d.2) (fun d => annPlayedPred d.2)

/-- Executing `GetAlbumFilterItemsCount` against a store snapshot. -/
def getAlbumFilterItemsCountRun (albums : List Album) (anns : List Annotation)
    (search starred artistId minYear maxYear : String) : FilterCounts :=
  runFacetExtract (albumCountBase albums anns search starred artistId minYear maxYear)
    (fun d => annStarredPred d.2) (fun d => annPlayedPred d.2)

/-! ## Sort comparison semantics -/

/-- Three-way comparison derived from a linear order. -/
def lcmp [LinearOrder α] (a b : α) : Ordering :=
  if a < b then Ordering.lt else if b < a then Ordering.gt else Ordering.eq

/-- Lexicographic three-way comparison of lists. -/
def listCompare [LinearOrder α] : List α → List α → Ordering
  | [], [] => Ordering.eq
  | [], _ :: _ => Ordering.lt
  | _ :: _, [] => Ordering.gt
  | a :: as, b :: bs =>
      match lcmp a b with
      | Ordering.eq => listCompare as bs
      | o => o

/-- Type rank for cross-type bson comparison (null < numbers < strings <
arrays < booleans, following the bson comparison order). -/
def fvRank : FieldVal → Nat
  | FieldVal.null => 0
  | FieldVal.intV _ => 1
  | FieldVal.strV _ => 2
  | FieldVal.strArr _ => 3
  | FieldVal.boolV _ => 4

/-- Total three-way comparison of bson values: within a type, the natural
order; across types, the type rank. -/
def fvCompare : FieldVal → FieldVal → Ordering
  | FieldVal.null, FieldVal.null => Ordering.eq
  | FieldVal.intV m, FieldVal.intV n => lcmp m n
  | FieldVal.strV s, FieldVal.strV t => lcmp s t
  | FieldVal.boolV a, FieldVal.boolV b => lcmp a b
  | FieldVal.strArr l, FieldVal.strArr m => listCompare l m
  | a, b => lcmp (fvRank a) (fvRank b)

/-- A document as seen by the `$sort` stage: field paths with values. -/
def SortDoc : Type := List (String × FieldVal)

instance : DecidableEq SortDoc := by
  unfold SortDoc
  infer_instance

/-- Field access on a sort document; missing fields sort as null. -/
def dget (d : SortDoc) (f : String) : FieldVal :=
  match d.lookup f with
  | some v => v
  | none => FieldVal.null

/-- Apply a sort direction to a comparison outcome (`dir < 0` reverses). -/
def keyCmp (dir : Int) (c : Ordering) : Ordering :=
  if dir < 0 then c.swap else c

/-- Compare two documents under an ordered `$sort` key list. -/
def keysCmp : List (String × Int) → SortDoc → SortDoc → Ordering
  | [], _, _ => Ordering.eq
  | (f, dir) :: ks, d₁, d₂ =>
      match keyCmp dir (fvCompare (dget d₁ f) (dget d₂ f)) with
      | Ordering.eq => keysCmp ks d₁ d₂
      | o => o

/-- The non-strict document order induced by a `$sort` key list. -/
def keysLE (ks : List (String × Int)) (d₁ d₂ : SortDoc) : Bool :=
  match keysCmp ks d₁ d₂ with
  | Ordering.gt => false
  | _ => true

/-- The key list of a `$sort` stage. -/
def sortKeysOf : Stage → List (String × Int)
  | Stage.sortDoc ks => ks
  | _ => []

/-! ## Pagination semantics -/

/-- Run the `$skip`/`$limit` tail of a pipeline over a result list. -/
def applyPagination (stages : List Stage) (l : List α) : List α :=
  stages.foldl
    (fun acc st =>
      match st with
      | Stage.skipDoc n => acc.drop n
      | Stage.limitDoc n => acc.take n
      | _ => acc)
    l

/-! ## Spec-side comparison definitions -/

/-- The stage order the spec asserts for a listItems pipeline (join,
flatten, base filter, sort-conditional filter, sort, pagination), with
the stage contents the media code builds.  Only the order is taken from
the spec's words. -/
def specOrderMediaPipeline
    (start endStr sort order search starred albumId artistId year : String) : List Stage :=
  [Stage.lookupAnn "media", Stage.unwindAnn, Stage.addAnnFields]
    ++ (let m := buildMatchStage search starred albumId artistId year
        if 0 < m.length then [Stage.matchDoc m] else [])
    ++ (if validateSortField sort albumId = "play_date" then [mediaPlayedStage] else [])
    ++ [buildSortStage (validateSortField sort albumId) order]
    ++ buildMediaPaginationStage start endStr

/-- The stage order the spec asserts for the album listItems pipeline:
base filter before the sort-conditional filter, with the stage contents
the album code builds. -/
def specOrderAlbumPipeline
    (start endStr sort order search starred artistId minYear maxYear : String) : List Stage :=
  [Stage.lookupAnn "album", Stage.unwindAnn, Stage.addAnnFields]
    ++ (let m := buildAlbumMatch search starred artistId minYear maxYear
        if 0 < m.length then [Stage.matchDoc m] else [])
    ++ (if validateAlbumSortField sort = "play_count" ∨ validateAlbumSortField sort = "play_date"
        then [albumPlayedStage] else [])
    ++ [buildAlbumSortStage (validateAlbumSortField sort) order]
    ++ buildAlbumPaginationStage start endStr

/-! ## Helper lemmas -/

theorem extractCount_runCountStage (s : List α) :
    extractCount (runCountStage s) = s.length := by
  unfold runCountStage
  split_ifs with h
  · simpa [extractCount] using h.symm
  · rfl

theorem lcmp_swap [LinearOrder α] (a b : α) : lcmp a b = (lcmp b a).swap := by
  unfold lcmp
  rcases lt_trichotomy a b with h | h | h
  · simp [h, lt_asymm h, Ordering.swap]
  · subst h
    simp [lt_irrefl, Ordering.swap]
  · simp [h, lt_asymm h, Ordering.swap]

theorem lcmp_eq_iff [LinearOrder α] (a b : α) : lcmp a b = Ordering.eq ↔ a = b := by
  unfold lcmp
  split_ifs with h1 h2
  · simp [ne_of_lt h1]
  · simp [ne_of_gt h2]
  · simp [le_antisymm (le_of_not_lt h2) (le_of_not_lt h1)]

theorem listCompare_swap [LinearOrder α] :
    ∀ (l m : List α), listCompare l m = (listCompare m l).swap
  | [], [] => rfl
  | [], _ :: _ => rfl
  | _ :: _, [] => rfl
  | a :: as, b :: bs => by
      simp only [listCompare, lcmp_swap a b]
      cases lcmp b a with
      | lt => rfl
      | eq => simpa using listCompare_swap as bs
      | gt => rfl

theorem listCompare_eq_iff [LinearOrder α] :
    ∀ (l m : List α), listCompare l m = Ordering.eq ↔ l = m
  | [], [] => by simp [listCompare]
  | [], _ :: _ => by simp [listCompare]
  | _ :: _, [] => by simp [listCompare]
  | a :: as, b :: bs => by
      simp only [listCompare]
      cases h : lcmp a b with
      | lt =>
          have hne : a ≠ b := by
            intro he
            rw [he, (lcmp_eq_iff b b).2 rfl] at h
            cases h
          simp [hne]
      | eq =>
          have hab := (lcmp_eq_iff a b).1 h
          subst hab
          simp [listCompare_eq_iff as bs]
      | gt =>
          have hne : a ≠ b := by
            intro he
            rw [he, (lcmp_eq_iff b b).2 rfl] at h
            cases h
          simp [hne]

theorem fvCompare_swap : ∀ (a b : FieldVal), fvCompare a b = (fvCompare b a).swap := by
  intro a b
  cases a <;> cases b <;>
    first
      | rfl
      | exact lcmp_swap _ _
      | exact listCompare_swap _ _

theorem fvCompare_eq_iff : ∀ (a b : FieldVal), fvCompare a b = Ordering.eq ↔ a = b := by
  intro a b
  cases a <;> cases b <;>
    simp [fvCompare] <;>
    first
      | exact lcmp_eq_iff _ _
      | exact listCompare_eq_iff _ _
      | simp [lcmp, fvRank]

theorem keysLE_two_antisymm (f : String) (dir : Int) (d₁ d₂ : SortDoc)
    (h₁ : keysLE [(f, dir), ("_id", 1)] d₁ d₂ = true)
    (h₂ : keysLE [(f, dir), ("_id", 1)] d₂ d₁ = true) :
    dget d₁ "_id" = dget d₂ "_id" := by
  have hswap : fvCompare (dget d₂ f) (dget d₁ f) = (fvCompare (dget d₁ f) (dget d₂ f)).swap :=
    fvCompare_swap _ _
  have hswapId : fvCompare (dget d₂ "_id") (dget d₁ "_id")
      = (fvCompare (dget d₁ "_id") (dget d₂ "_id")).swap :=
    fvCompare_swap _ _
  simp only [keysLE, keysCmp, keyCmp, hswap, hswapId] at h₁ h₂
  apply (fvCompare_eq_iff _ _).1
  rcases hc : fvCompare (dget d₁ f) (dget d₂ f) with hl | he | hg <;>
    rw [hc] at h₁ h₂ <;>
    rcases hc2 : fvCompare (dget d₁ "_id") (dget d₂ "_id") with h2l | h2e | h2g <;>
    rw [hc2] at h₁ h₂ <;>
    split_ifs at h₁ h₂ <;>
    simp_all [Ordering.swap]

theorem pairwise_perm_unique {le : α → α → Prop} :
    ∀ (l₁ l₂ : List α), l₁.Perm l₂ → l₁.Pairwise le → l₂.Pairwise le →
      (∀ a ∈ l₁, ∀ b ∈ l₁, le a b → le b a → a = b) → l₁ = l₂
  | [], l₂, hp, _, _, _ => hp.nil_eq
  | x :: xs, [], hp, _, _, _ => (List.cons_ne_nil x xs hp.eq_nil).elim
  | x :: xs, y :: ys, hp, hs₁, hs₂, hanti => by
      rcases List.pairwise_cons.1 hs₁ with ⟨hx, hxs⟩
      rcases List.pairwise_cons.1 hs₂ with ⟨hy, hys⟩
      have hyx : y ∈ x :: xs := hp.mem_iff.2 (List.mem_cons_self y ys)
      have hxy' : x ∈ y :: ys := hp.mem_iff.1 (List.mem_cons_self x xs)
      have hxy : x = y := by
        rcases List.mem_cons.1 hyx with h | h
        · exact h.symm
        · rcases List.mem_cons.1 hxy' with h' | h'
          · exact h'
          · exact hanti x (List.mem_cons_self x xs) y hyx (hx y h) (hy x h')
      subst hxy
      have htail : xs = ys :=
        pairwise_perm_unique xs ys hp.cons_inv hxs hys
          (fun a ha b hb => hanti a (List.mem_cons_of_mem x ha) b (List.mem_cons_of_mem x hb))
      rw [htail]

theorem buildMatchStage_no_gtIntF (s st al ar y fl : String) (n : Int) :
    Filter.gtIntF fl n ∉ buildMatchStage s st al ar y := by
  intro h
  simp only [buildMatchStage, List.mem_append] at h
  rcases h with ((((h | h) | h) | h) | h)
  · unfold mediaArtistClause at h
    split at h <;> simp_all
  · unfold mediaAlbumClause at h
    split at h <;> simp_all
  · unfold mediaYearClause at h
    split at h
    · simp at h
    · split at h <;> simp_all
  · unfold mediaSearchClause at h
    split at h <;> simp_all [mediaSearchFilter]
  · unfold mediaStarredClause at h
    split at h
    · simp at h
    · split at h <;> simp_all

theorem buildAlbumMatch_no_and2 (s st ar mn mx : String) (f g : Filter) :
    Filter.and2 f g ∉ buildAlbumMatch s st ar mn mx := by
  intro h
  simp only [buildAlbumMatch, List.mem_append] at h
  rcases h with (((h | h) | h) | h)
  · unfold albumArtistClause at h
    split at h <;> simp_all
  · unfold albumYearClause at h
    split at h
    · split at h <;> simp_all
    · simp at h
  · unfold albumSearchClause at h
    split at h <;> simp_all [albumSearchFilter]
  · unfold albumStarredClause at h
    split at h
    · simp at h
    · split at h <;> simp_all

theorem reMatchesPrefix_noDot :
    ∀ (p cs : List Char), (∀ c ∈ p, c ≠ '.') →
      reMatchesPrefix (p.map (fun c => if c = '.' then RElem.dot else RElem.lit c)) cs
        = prefixCI p cs
  | [], _, _ => rfl
  | c :: p', cs, h => by
      have hc : c ≠ '.' := h c (List.mem_cons_self c p')
      cases cs with
      | nil => simp [reMatchesPrefix, prefixCI, hc]
      | cons d cs' =>
          simp [reMatchesPrefix, prefixCI, hc,
            reMatchesPrefix_noDot p' cs' (fun x hx => h x (List.mem_cons_of_mem c hx))]

theorem reSearch_noDot :
    ∀ (p cs : List Char), (∀ c ∈ p, c ≠ '.') →
      reSearch (p.map (fun c => if c = '.' then RElem.dot else RElem.lit c)) cs = substrCI p cs
  | p, [], h => by
      simp [reSearch, substrCI, reMatchesPrefix_noDot p [] h]
  | p, c :: cs', h => by
      simp [reSearch, substrCI, reMatchesPrefix_noDot p (c :: cs') h, reSearch_noDot p cs' h]

theorem regexIMatch_literal (pat s : String) (h : regexLiteralChars pat = true) :
    regexIMatch pat s = containsSubstrCI s pat := by
  have hnd : ∀ c ∈ pat.toList, c ≠ '.' := by
    intro c hc he
    have hall := (List.all_eq_true.1 h) c hc
    subst he
    simp at hall
  unfold regexIMatch containsSubstrCI parseRegex
  exact reSearch_noDot _ _ hnd

theorem albumPagination_eq_media :
    buildAlbumPaginationStage = buildMediaPaginationStage := rfl

theorem buildMediaPaginationStage_shapes (start endStr : String) (st : Stage)
    (h : st ∈ buildMediaPaginationStage start endStr) :
    (∃ n, st = Stage.skipDoc n) ∨ (∃ n, st = Stage.limitDoc n) := by
  unfold buildMediaPaginationStage at h
  split at h
  · split_ifs at h <;> simp at h <;>
      first
        | exact Or.inl ⟨_, h⟩
        | exact Or.inr ⟨_, h⟩
        | (rcases h with h | h
           · exact Or.inl ⟨_, h⟩
           · exact Or.inr ⟨_, h⟩)
  · cases h

/-! ## Claim theorems -/

/-- C3: if both pagination strings parse as integers with `start ≥ 0` and
`end > start`, the pipeline paginates with `skip = start` (the skip stage
omitted exactly when `start = 0`) and `limit = end − start` (always
present), so the returned count is at most `end − start`; otherwise no
pagination stages are added and the result list passes through
unchanged. -/
theorem pagination_stage_spec :
    (∀ (start endStr : String) (s e : Int),
        strconvAtoi start = some s → strconvAtoi endStr = some e → 0 ≤ s → s < e →
        buildMediaPaginationStage start endStr
            = (if s = 0 then [] else [Stage.skipDoc s.toNat]) ++ [Stage.limitDoc (e - s).toNat]
          ∧ buildAlbumPaginationStage start endStr = buildMediaPaginationStage start endStr
          ∧ ∀ (l : List Nat),
              (applyPagination (buildMediaPaginationStage start endStr) l).length ≤ (e - s).toNat)
    ∧ ∀ (start endStr : String),
        (match strconvAtoi start, strconvAtoi endStr with
         | some s, some e => s < 0 ∨ e ≤ s
         | _, _ => True) →
        buildMediaPaginationStage start endStr = []
          ∧ buildAlbumPaginationStage start endStr = []
          ∧ ∀ (l : List Nat), applyPagination ([] : List Stage) l = l := by
  constructor
  · intro start endStr s e h1 h2 hs0 hse
    have hcond : ¬(s < 0 ∨ e ≤ s) := by omega
    have hlim : 0 < e - s := by omega
    have hmedia : buildMediaPaginationStage start endStr
        = (if s = 0 then [] else [Stage.skipDoc s.toNat]) ++ [Stage.limitDoc (e - s).toNat] := by
      unfold buildMediaPaginationStage
      rw [h1, h2]
      simp only [if_neg hcond, if_pos hlim]
      by_cases hz : s = 0
      · simp [hz]
      · have hpos : 0 < s := by omega
        simp [hz, hpos]
    refine ⟨hmedia, ?_, ?_⟩
    · unfold buildMediaPaginationStage buildAlbumPaginationStage
      rw [h1, h2]
    · intro l
      rw [hmedia]
      by_cases hz : s = 0
      · simp [hz, applyPagination, List.length_take]
      · simp [hz, applyPagination, List.length_take]
  · intro start endStr h
    refine ⟨?_, ?_, fun l => rfl⟩
    · unfold buildMediaPaginationStage
      cases hA : strconvAtoi start with
      | none => rfl
      | some s =>
          cases hB : strconvAtoi endStr with
          | none => rfl
          | some e =>
              rw [hA, hB] at h
              simp only [hA, hB]
              exact if_pos h
    · unfold buildAlbumPaginationStage
      cases hA : strconvAtoi start with
      | none => rfl
      | some s =>
          cases hB : strconvAtoi endStr with
          | none => rfl
          | some e =>
              rw [hA, hB] at h
              simp only [hA, hB]
              exact if_pos h

/-- Witness for C3: `start="3"`, `end="7"` paginates with skip 3 and
limit 4; a non-numeric start disables pagination. -/
theorem pagination_stage_spec_witness :
    (buildMediaPaginationStage "3" "7"
        = (if (3 : Int) = 0 then [] else [Stage.skipDoc (3 : Int).toNat])
            ++ [Stage.limitDoc ((7 : Int) - 3).toNat])
      ∧ buildMediaPaginationStage "x" "7" = [] :=
  ⟨(pagination_stage_spec.1 "3" "7" 3 7 (by decide) (by decide) (by decide) (by decide)).1,
   (pagination_stage_spec.2 "x" "7" (by exact trivial)).1⟩

/-- C4: the sort stage built for any resolved field and requested order
pairs the primary key with an unconditional secondary key `_id`
ascending, and any two store-side orderings of the same snapshot that
respect that key list coincide whenever the documents' `_id` values are
distinct — ties on the primary field cannot produce two different
orderings. -/
theorem sort_stage_deterministic :
    ∀ (field order : String),
      buildSortStage field order
          = Stage.sortDoc [(field, if order = "desc" then -1 else 1), ("_id", 1)]
        ∧ buildAlbumSortStage field order = buildSortStage field order
        ∧ ∀ (l out₁ out₂ : List SortDoc),
            (l.map (fun d => dget d "_id")).Nodup →
            out₁.Perm l → out₂.Perm l →
            out₁.Pairwise (fun a b => keysLE (sortKeysOf (buildSortStage field order)) a b = true) →
            out₂.Pairwise (fun a b => keysLE (sortKeysOf (buildSortStage field order)) a b = true) →
            out₁ = out₂ := by
  intro field order
  refine ⟨rfl, rfl, ?_⟩
  intro l out₁ out₂ hnd hp₁ hp₂ hs₁ hs₂
  apply pairwise_perm_unique out₁ out₂ (hp₁.trans hp₂.symm) hs₁ hs₂
  intro a ha b hb hab hba
  have hid : dget a "_id" = dget b "_id" :=
    keysLE_two_antisymm field (if order = "desc" then -1 else 1) a b hab hba
  exact List.inj_on_of_nodup_map hnd (hp₁.mem_iff.1 ha) (hp₁.mem_iff.1 hb) hid

/-- Witness for C4: two documents tied on `year` but with distinct ids
have a unique descending-year ordering. -/
theorem sort_stage_deterministic_witness :
    ([[("_id", FieldVal.intV 1), ("year", FieldVal.intV 2000)],
      [("_id", FieldVal.intV 2), ("year", FieldVal.intV 2000)]] : List SortDoc)
      = [[("_id", FieldVal.intV 1), ("year", FieldVal.intV 2000)],
         [("_id", FieldVal.intV 2), ("year", FieldVal.intV 2000)]] :=
  (sort_stage_deterministic "year" "desc").2.2
    [[("_id", FieldVal.intV 2), ("year", FieldVal.intV 2000)],
     [("_id", FieldVal.intV 1), ("year", FieldVal.intV 2000)]]
    [[("_id", FieldVal.intV 1), ("year", FieldVal.intV 2000)],
     [("_id", FieldVal.intV 2), ("year", FieldVal.intV 2000)]]
    [[("_id", FieldVal.intV 1), ("year", FieldVal.intV 2000)],
     [("_id", FieldVal.intV 2), ("year", FieldVal.intV 2000)]]
    (by decide)
    (List.Perm.swap _ _ [])
    (List.Perm.swap _ _ [])
    (by decide)
    (by decide)

/-- C7 counterexample: for albums the key `"order_album_name"` is not in
the logical allow-list, yet `validateAlbumSortField` resolves it to
itself, not to the default `"_id"` — the physical field names form a
second accepted key set. -/
theorem album_sort_physical_counterexample :
    albumSortMappings.lookup (goToLower "order_album_name") = none
      ∧ validateAlbumSortField "order_album_name" = "order_album_name"
      ∧ "order_album_name" ≠ "_id" := by decide

/-- C7 amended: a requested key whose lowercasing is outside the media
logical table resolves to `"file_name"` when an album is viewed and to
`"_id"` otherwise; for albums a key outside the logical table resolves to
itself when it is one of the physical sort fields and to `"_id"` only
otherwise. -/
theorem sort_key_fallback :
    (∀ (sort albumId : String), mediaSortMappings.lookup (goToLower sort) = none →
        validateSortField sort albumId = if 0 < albumId.length then "file_name" else "_id")
      ∧ (∀ sort : String, albumSortMappings.lookup (goToLower sort) = none →
          albumValidSortFields.contains (goToLower sort) = false →
          validateAlbumSortField sort = "_id")
      ∧ (∀ sort : String, albumSortMappings.lookup (goToLower sort) = none →
          albumValidSortFields.contains (goToLower sort) = true →
          validateAlbumSortField sort = goToLower sort) := by
  refine ⟨?_, ?_, ?_⟩
  · intro sort albumId h
    unfold validateSortField
    rw [h]
  · intro sort h hc
    unfold validateAlbumSortField
    rw [h]
    simp only [hc]
    simp
  · intro sort h hc
    unfold validateAlbumSortField
    rw [h]
    simp only [hc]
    simp

/-- Witness for C7 amended: `"zzz"` falls back to the defaults for both
kinds; `"ORDER_ALBUM_NAME"` resolves to its own lowercasing for albums. -/
theorem sort_key_fallback_witness :
    validateSortField "zzz" "" = (if 0 < ("" : String).length then "file_name" else "_id")
      ∧ validateAlbumSortField "zzz" = "_id"
      ∧ validateAlbumSortField "ORDER_ALBUM_NAME" = goToLower "ORDER_ALBUM_NAME" :=
  ⟨sort_key_fallback.1 "zzz" "" (by decide),
   sort_key_fallback.2.1 "zzz" (by decide) (by decide),
   sort_key_fallback.2.2 "ORDER_ALBUM_NAME" (by decide) (by decide)⟩

/-- C9 counterexample: the two FilterItemsCount executions install no
deadline on their context before the store round-trip, so not every query
execution runs under the fixed 10-second deadline. -/
theorem filterCounts_timeout_counterexample :
    (getMediaFileFilterItemsCountCall "" "" "" "" "").timeoutSeconds = none
      ∧ (getAlbumFilterItemsCountCall "" "" "" "" "").timeoutSeconds = none
      ∧ (none : Option Nat) ≠ some 10 :=
  ⟨rfl, rfl, by decide⟩

/-- C9 amended: the two listItems executions install a 10-second deadline
on their context before the store round-trip; the two filterCounts
executions install none and run on the caller's context. -/
theorem query_timeout_policy :
    ∀ (start endStr sort order search starred albumId artistId year minYear maxYear : String),
      (getMediaFileItemsCall start endStr sort order search starred albumId artistId year).timeoutSeconds
          = some 10
        ∧ (getAlbumItemsCall start endStr sort order search starred artistId minYear maxYear).timeoutSeconds
            = some 10
        ∧ (getMediaFileFilterItemsCountCall search starred albumId artistId year).timeoutSeconds = none
        ∧ (getAlbumFilterItemsCountCall search starred artistId minYear maxYear).timeoutSeconds = none :=
  fun _ _ _ _ _ _ _ _ _ _ _ => ⟨rfl, rfl, rfl, rfl⟩

/-- C5: the sort-conditional restriction (`play_count > 0` for tracks;
`play_count > 0` and non-null `play_date` for albums) appears in a
listItems pipeline, always before the sort stage, exactly when the
resolved sort field is `"play_date"` for tracks or
`"play_count"`/`"play_date"` for albums; for every other resolved field
no such stage appears anywhere in the pipeline. -/
theorem sort_conditional_restriction :
    ∀ (start endStr sort order search starred albumId artistId year minYear maxYear : String),
      (∃ pre post,
          getMediaFileItemsPipeline start endStr sort order search starred albumId artistId year
              = pre
                  ++ (if validateSortField sort albumId = "play_date" then [mediaPlayedStage] else [])
                  ++ post
            ∧ buildSortStage (validateSortField sort albumId) order ∈ post
            ∧ mediaPlayedStage ∉ pre ∧ mediaPlayedStage ∉ post)
      ∧ (∃ pre post,
          getAlbumItemsPipeline start endStr sort order search starred artistId minYear maxYear
              = pre
                  ++ (if validateAlbumSortField sort = "play_count"
                        ∨ validateAlbumSortField sort = "play_date"
                      then [albumPlayedStage] else [])
                  ++ post
            ∧ buildAlbumSortStage (validateAlbumSortField sort) order ∈ post
            ∧ albumPlayedStage ∉ pre ∧ albumPlayedStage ∉ post) := by
  intro start endStr sort order search starred albumId artistId year minYear maxYear
  constructor
  · refine ⟨[Stage.lookupAnn "media", Stage.unwindAnn, Stage.addAnnFields]
        ++ (if 0 < (buildMatchStage search starred albumId artistId year).length
            then [Stage.matchDoc (buildMatchStage search starred albumId artistId year)] else []),
      buildSortStage (validateSortField sort albumId) order
        :: buildMediaPaginationStage start endStr,
      ?_, List.mem_cons_self _ _, ?_, ?_⟩
    · simp [getMediaFileItemsPipeline, List.append_assoc]
    · intro hmem
      rcases List.mem_append.1 hmem with h | h
      · simp [mediaPlayedStage] at h
      · split_ifs at h
        · simp only [List.mem_singleton, mediaPlayedStage, Stage.matchDoc.injEq] at h
          exact buildMatchStage_no_gtIntF search starred albumId artistId year "play_count" 0
            (by rw [← h]; exact List.mem_singleton_self _)
        · cases h
    · intro hmem
      rcases List.mem_cons.1 hmem with h | h
      · simp [mediaPlayedStage, buildSortStage] at h
      · rcases buildMediaPaginationStage_shapes start endStr _ h with ⟨n, hn⟩ | ⟨n, hn⟩ <;>
          simp [mediaPlayedStage] at hn
  · refine ⟨[Stage.lookupAnn "album", Stage.unwindAnn, Stage.addAnnFields],
      (if 0 < (buildAlbumMatch search starred artistId minYear maxYear).length
        then [Stage.matchDoc (buildAlbumMatch search starred artistId minYear maxYear)] else [])
        ++ (buildAlbumSortStage (validateAlbumSortField sort) order
              :: buildAlbumPaginationStage start endStr),
      ?_, ?_, ?_, ?_⟩
    · simp [getAlbumItemsPipeline, List.append_assoc]
    · exact List.mem_append_right _ (List.mem_cons_self _ _)
    · intro hmem
      simp [albumPlayedStage] at hmem
    · intro hmem
      rcases List.mem_append.1 hmem with h | h
      · split_ifs at h
        · simp only [List.mem_singleton, albumPlayedStage, Stage.matchDoc.injEq] at h
          exact buildAlbumMatch_no_and2 search starred artistId minYear maxYear
            (Filter.gtIntF "play_count" 0) (Filter.neNullF "play_date")
            (by rw [← h]; exact List.mem_singleton_self _)
        · cases h
      · rcases List.mem_cons.1 h with h' | h'
        · simp [albumPlayedStage, buildAlbumSortStage] at h'
        · rw [albumPagination_eq_media] at h'
          rcases buildMediaPaginationStage_shapes start endStr _ h' with ⟨n, hn⟩ | ⟨n, hn⟩ <;>
            simp [albumPlayedStage] at hn

/-- C6 counterexample: for the album pipeline with `sort="play_date"` and
`starred="true"` the sort-conditional filter stage precedes the base
filter stage, so the pipeline does not have the claimed
base-filter-then-conditional-filter order. -/
theorem pipeline_stage_order_counterexample :
    getAlbumItemsPipeline "" "" "play_date" "" "" "true" "" "" ""
      ≠ specOrderAlbumPipeline "" "" "play_date" "" "" "true" "" "" "" := by decide

/-- C6 amended: each listItems pipeline has a fixed stage order — join,
flatten, and then for media files the base filter before the
sort-conditional filter, but for albums the sort-conditional filter
before the base filter, followed by the sort stage and the pagination
stages when present. -/
theorem pipeline_stage_order :
    ∀ (start endStr sort order search starred albumId artistId year minYear maxYear : String),
      getMediaFileItemsPipeline start endStr sort order search starred albumId artistId year
          = specOrderMediaPipeline start endStr sort order search starred albumId artistId year
        ∧ getAlbumItemsPipeline start endStr sort order search starred artistId minYear maxYear
            = [Stage.lookupAnn "album", Stage.unwindAnn, Stage.addAnnFields]
                ++ (if validateAlbumSortField sort = "play_count"
                      ∨ validateAlbumSortField sort = "play_date"
                    then [albumPlayedStage] else [])
                ++ (if 0 < (buildAlbumMatch search starred artistId minYear maxYear).length
                    then [Stage.matchDoc (buildAlbumMatch search starred artistId minYear maxYear)]
                    else [])
                ++ [buildAlbumSortStage (validateAlbumSortField sort) order]
                ++ buildAlbumPaginationStage start endStr :=
  fun _ _ _ _ _ _ _ _ _ _ _ => ⟨rfl, rfl⟩

theorem unwindPreserve_exists (ms : List Annotation) : ∃ o, o ∈ unwindPreserve ms := by
  cases ms with
  | nil => exact ⟨none, List.mem_singleton_self _⟩
  | cons a tl => exact ⟨some a, List.mem_map_of_mem some (List.mem_cons_self a tl)⟩

theorem joinWithAnnotations_mem (idOf : α → Nat) (itemType : String)
    (entities : List α) (anns : List Annotation) (x : α) (hx : x ∈ entities)
    (o : Option Annotation) (ho : o ∈ unwindPreserve (annotationsFor anns itemType (idOf x))) :
    (x, o) ∈ joinWithAnnotations idOf itemType entities anns :=
  List.mem_flatMap.2 ⟨x, hx, List.mem_map.2 ⟨o, ho, rfl⟩⟩

/-- C2: the annotation join is a left-outer join keyed on (item_id =
entity id, item_type = kind tag): the looked-up annotations are exactly
the key-matching ones, every entity of the queried collection is
preserved in the joined stream, an entity with no matching annotation is
joined with an absent annotation, and the absent annotation decodes to
the defaults play_count 0, play_date null, rating 0, starred false,
starred_at null. -/
theorem annotation_join_left_outer :
    ∀ (files : List MediaFile) (albums : List Album) (anns : List Annotation)
      (f : MediaFile) (al : Album),
      (∀ (a : Annotation) (itemType : String) (itemId : Nat),
          a ∈ annotationsFor anns itemType itemId
            ↔ a ∈ anns ∧ a.item_id = itemId ∧ a.item_type = itemType)
        ∧ (f ∈ files → ∃ o, (f, o) ∈ joinMedia files anns)
        ∧ (f ∈ files → annotationsFor anns "media" f.id = [] →
            (f, (none : Option Annotation)) ∈ joinMedia files anns)
        ∧ (al ∈ albums → ∃ o, (al, o) ∈ joinAlbum albums anns)
        ∧ (al ∈ albums → annotationsFor anns "album" al.id = [] →
            (al, (none : Option Annotation)) ∈ joinAlbum albums anns)
        ∧ decodeAnnotationFields none = ⟨0, none, 0, false, none⟩ := by
  intro files albums anns f al
  refine ⟨?_, ?_, ?_, ?_, ?_, rfl⟩
  · intro a itemType itemId
    simp [annotationsFor, List.mem_filter, and_assoc]
  · intro hf
    rcases unwindPreserve_exists (annotationsFor anns "media" f.id) with ⟨o, ho⟩
    exact ⟨o, joinWithAnnotations_mem MediaFile.id "media" files anns f hf o ho⟩
  · intro hf hnone
    refine joinWithAnnotations_mem MediaFile.id "media" files anns f hf none ?_
    rw [hnone]
    exact List.mem_singleton_self _
  · intro ha
    rcases unwindPreserve_exists (annotationsFor anns "album" al.id) with ⟨o, ho⟩
    exact ⟨o, joinWithAnnotations_mem Album.id "album" albums anns al ha o ho⟩
  · intro ha hnone
    refine joinWithAnnotations_mem Album.id "album" albums anns al ha none ?_
    rw [hnone]
    exact List.mem_singleton_self _

/-- Witness for C2: a media file with no annotations is preserved by the
join with an absent annotation decoding to the default values. -/
theorem annotation_join_left_outer_witness :
    ((⟨1, "t", "ar", "al", "", "", [], 0, ""⟩ : MediaFile), (none : Option Annotation))
        ∈ joinMedia [⟨1, "t", "ar", "al", "", "", [], 0, ""⟩] []
      ∧ decodeAnnotationFields none = ⟨0, none, 0, false, none⟩ := by
  have h := annotation_join_left_outer [⟨1, "t", "ar", "al", "", "", [], 0, ""⟩] [] []
      ⟨1, "t", "ar", "al", "", "", [], 0, ""⟩ ⟨1, "n", "a", "aa", "", [], 0, 0⟩
  exact ⟨h.2.2.1 (List.mem_singleton_self _) rfl, h.2.2.2.2.2⟩

/-- C1 counterexample: with `starred="true"` the media count pipeline's
base filter is empty — `buildBaseMatch` drops the starred parameter —
while the listing base filter contains the starred clause; the counts
then include a media file that a starred-constrained base set would
exclude (total 1 instead of 0). -/
theorem filterCounts_starred_counterexample :
    buildBaseMatch "" "" "" "" = ([] : List Filter)
      ∧ buildMatchStage "" "true" "" "" "" = [Filter.eqF "starred" (FieldVal.boolV true)]
      ∧ getMediaFileFilterItemsCountRun [⟨1, "t", "ar", "al", "", "", [], 0, ""⟩] [] "" "true" "" "" ""
          = ⟨1, 0, 0⟩
      ∧ evalClauses (mediaListVal (⟨1, "t", "ar", "al", "", "", [], 0, ""⟩, none))
          (buildMatchStage "" "true" "" "" "") = false := by decide

/-- C1 amended: for each kind the three facet counts are computed from
one identical base-filtered joined set — total is its size and the
starred / recent_play counts are the sizes of its predicate-filtered
subsets; the album count base filter is built from all of the call's
filter parameters including starred, but the media count base filter
(`buildBaseMatch`) is built with the starred parameter erased, so
starred does not constrain the media counting base set as it does the
listing. -/
theorem filterCounts_base_set :
    ∀ (files : List MediaFile) (albums : List Album) (anns : List Annotation)
      (search starred albumId artistId year minYear maxYear : String),
      buildBaseMatch search albumId artistId year = buildMatchStage search "" albumId artistId year
        ∧ buildAlbumBaseMatch search starred artistId minYear maxYear
            = buildAlbumMatch search starred artistId minYear maxYear
        ∧ (getMediaFileFilterItemsCountRun files anns search starred albumId artistId year).total
            = (mediaCountBase files anns search albumId artistId year).length
        ∧ (getMediaFileFilterItemsCountRun files anns search starred albumId artistId year).starred
            = ((mediaCountBase files anns search albumId artistId year).filter
                (fun d => annStarredPred d.2)).length
        ∧ (getMediaFileFilterItemsCountRun files anns search starred albumId artistId year).recentPlay
            = ((mediaCountBase files anns search albumId artistId year).filter
                (fun d => annPlayedPred d.2)).length
        ∧ (getAlbumFilterItemsCountRun albums anns search starred artistId minYear maxYear).total
            = (albumCountBase albums anns search starred artistId minYear maxYear).length
        ∧ (getAlbumFilterItemsCountRun albums anns search starred artistId minYear maxYear).starred
            = ((albumCountBase albums anns search starred artistId minYear maxYear).filter
                (fun d => annStarredPred d.2)).length
        ∧ (getAlbumFilterItemsCountRun albums anns search starred artistId minYear maxYear).recentPlay
            = ((albumCountBase albums anns search starred artistId minYear maxYear).filter
                (fun d => annPlayedPred d.2)).length := by
  intro files albums anns search starred albumId artistId year minYear maxYear
  refine ⟨rfl, rfl, ?_, ?_, ?_, ?_, ?_, ?_⟩ <;>
    simp [getMediaFileFilterItemsCountRun, getAlbumFilterItemsCountRun, runFacetExtract,
      extractCount_runCountStage]

/-- C10: for every store snapshot and every parameter combination the
facet counts of both kinds are natural numbers with starred ≤ total and
recent_play ≤ total; each facet branch count equals the size of its
predicate-filtered subset of the shared base set (so a branch matching
zero rows yields 0), and the empty `$count` stream extracts to the count
0 rather than a missing value. -/
theorem filterCounts_invariants :
    ∀ (files : List MediaFile) (albums : List Album) (anns : List Annotation)
      (search starred albumId artistId year minYear maxYear : String),
      (getMediaFileFilterItemsCountRun files anns search starred albumId artistId year).starred
          ≤ (getMediaFileFilterItemsCountRun files anns search starred albumId artistId year).total
        ∧ (getMediaFileFilterItemsCountRun files anns search starred albumId artistId year).recentPlay
            ≤ (getMediaFileFilterItemsCountRun files anns search starred albumId artistId year).total
        ∧ (getAlbumFilterItemsCountRun albums anns search starred artistId minYear maxYear).starred
            ≤ (getAlbumFilterItemsCountRun albums anns search starred artistId minYear maxYear).total
        ∧ (getAlbumFilterItemsCountRun albums anns search starred artistId minYear maxYear).recentPlay
            ≤ (getAlbumFilterItemsCountRun albums anns search starred artistId minYear maxYear).total
        ∧ extractCount ([] : List Nat) = 0
        ∧ (∀ (s : List (MediaFile × List Annotation)) (p q : MediaFile × List Annotation → Bool),
            (runFacetExtract s p q).total = s.length
              ∧ (runFacetExtract s p q).starred = (s.filter p).length
              ∧ (runFacetExtract s p q).recentPlay = (s.filter q).length) := by
  intro files albums anns search starred albumId artistId year minYear maxYear
  refine ⟨?_, ?_, ?_, ?_, rfl, ?_⟩ <;>
    simp [getMediaFileFilterItemsCountRun, getAlbumFilterItemsCountRun, runFacetExtract,
      extractCount_runCountStage, List.length_filter_le]

/-- C8 counterexample: the search string `"a.c"` — containing the regex
metacharacter `.` — matches a media file titled `"axc"` although `"a.c"`
is not a literal substring of any of its designated search fields: the
clause is a regex match with the raw string, not a literal substring
match. -/
theorem search_literal_counterexample :
    evalClauses (mediaListVal (⟨1, "axc", "", "", "", "", [], 0, ""⟩, none))
        (buildMatchStage "a.c" "" "" "" "") = true
      ∧ containsSubstrCI "axc" "a.c" = false
      ∧ containsSubstrCI "" "a.c" = false := by decide

/-- C8 amended: an absent or empty search string contributes no clause;
a non-empty one contributes the `$or` clause of case-insensitive regex
matches of the raw search string over the kind's designated name-like
fields (title/artist/album for tracks, name/artist/album_artist for
albums); when the search string is free of regex metacharacters this
coincides with case-insensitive literal substring matching. -/
theorem search_clause_semantics :
    ∀ (search starred albumId artistId year minYear maxYear : String)
      (j : MediaFile × Option Annotation) (k : Album × Option Annotation),
      (mediaSearchClause "" = [] ∧ albumSearchClause "" = [])
        ∧ (search ≠ "" →
            mediaSearchFilter search ∈ buildMatchStage search starred albumId artistId year)
        ∧ (search ≠ "" →
            albumSearchFilter search ∈ buildAlbumMatch search starred artistId minYear maxYear)
        ∧ evalFilter (mediaListVal j) (mediaSearchFilter search)
            = (regexIMatch search j.1.title || regexIMatch search j.1.artist
                || regexIMatch search j.1.album)
        ∧ evalFilter (albumListVal k) (albumSearchFilter search)
            = (regexIMatch search k.1.name || regexIMatch search k.1.artist
                || regexIMatch search k.1.album_artist)
        ∧ (regexLiteralChars search = true →
            evalFilter (mediaListVal j) (mediaSearchFilter search)
              = (containsSubstrCI j.1.title search || containsSubstrCI j.1.artist search
                  || containsSubstrCI j.1.album search)) := by
  intro search starred albumId artistId year minYear maxYear j k
  have hmedia : evalFilter (mediaListVal j) (mediaSearchFilter search)
      = (regexIMatch search j.1.title || regexIMatch search j.1.artist
          || regexIMatch search j.1.album) := by
    simp [mediaSearchFilter, evalFilter, mediaListVal, mediaVal]
  refine ⟨⟨rfl, rfl⟩, ?_, ?_, hmedia, ?_, ?_⟩
  · intro hne
    unfold buildMatchStage
    refine List.mem_append_left _ (List.mem_append_right _ ?_)
    unfold mediaSearchClause
    rw [if_neg hne]
    exact List.mem_singleton_self _
  · intro hne
    unfold buildAlbumMatch
    refine List.mem_append_left _ (List.mem_append_right _ ?_)
    unfold albumSearchClause
    rw [if_neg hne]
    exact List.mem_singleton_self _
  · simp [albumSearchFilter, evalFilter, albumListVal, albumVal]
  · intro hlit
    rw [hmedia, regexIMatch_literal search j.1.title hlit,
      regexIMatch_literal search j.1.artist hlit, regexIMatch_literal search j.1.album hlit]

/-- Witness for C8 amended: the metacharacter-free search `"bc"`
case-insensitively substring-matches a title `"xABCx"`. -/
theorem search_clause_semantics_witness :
    (mediaSearchFilter "bc" ∈ buildMatchStage "bc" "" "" "" "")
      ∧ evalFilter (mediaListVal (⟨1, "xABCx", "", "", "", "", [], 0, ""⟩, none))
            (mediaSearchFilter "bc")
          = (containsSubstrCI "xABCx" "bc" || containsSubstrCI "" "bc" || containsSubstrCI "" "bc")
      ∧ containsSubstrCI "xABCx" "bc" = true := by
  have h := search_clause_semantics "bc" "" "" "" "" "" ""
      (⟨1, "xABCx", "", "", "", "", [], 0, ""⟩, none) (⟨1, "", "", "", "", [], 0, 0⟩, none)
  exact ⟨h.2.1 (by decide), h.2.2.2.2.2 (by decide), by decide⟩

end NineSong
